import Mathlib

/-!
Shallow embedding of the sensor-geometry core of the 3d-map-cesium repository:
vector, matrix and quaternion utilities (real-valued models of the external
rendering-engine library routines the code calls), the frustum outline
generator (SensorFrustum), the solid frustum visualizer (FrustumVisualizer),
and the shadow-projection camera synthesizer (SensorShadow, SensorShadowArea).
Machine floating-point arithmetic is modelled by exact real numbers.
-/

namespace CesiumSensor

/-- Model of the library type Cartesian3: a 3-component vector of reals. -/
@[ext]
structure Cart3 where
  x : ℝ
  y : ℝ
  z : ℝ

/-- Componentwise vector addition (library Cartesian3.add). -/
def addC (v w : Cart3) : Cart3 := ⟨v.x + w.x, v.y + w.y, v.z + w.z⟩

/-- Scalar multiple (library Cartesian3.multiplyByScalar). -/
def smulC (c : ℝ) (v : Cart3) : Cart3 := ⟨c * v.x, c * v.y, c * v.z⟩

/-- Componentwise negation (library Cartesian3.negate). -/
def negC (v : Cart3) : Cart3 := ⟨-v.x, -v.y, -v.z⟩

/-- Dot product (library Cartesian3.dot). -/
def dotC (v w : Cart3) : ℝ := v.x * w.x + v.y * w.y + v.z * w.z

/-- Cross product (library Cartesian3.cross). -/
def crossC (v w : Cart3) : Cart3 :=
  ⟨v.y * w.z - v.z * w.y, v.z * w.x - v.x * w.z, v.x * w.y - v.y * w.x⟩

/-- Squared magnitude (library Cartesian3.magnitudeSquared). -/
def magnitudeSquared (v : Cart3) : ℝ := v.x * v.x + v.y * v.y + v.z * v.z

/-- Magnitude (library Cartesian3.magnitude). -/
noncomputable def magnitude (v : Cart3) : ℝ := Real.sqrt (magnitudeSquared v)

/-- Model of the library Cartesian3.normalize: divide each component by the
magnitude (no zero guard in the library routine itself). -/
noncomputable def normalizeC (v : Cart3) : Cart3 :=
  ⟨v.x / magnitude v, v.y / magnitude v, v.z / magnitude v⟩

/-- Model of the library type Matrix3, with entry names mRC = row R, column C. -/
@[ext]
structure Mat3 where
  m00 : ℝ
  m01 : ℝ
  m02 : ℝ
  m10 : ℝ
  m11 : ℝ
  m12 : ℝ
  m20 : ℝ
  m21 : ℝ
  m22 : ℝ

/-- Matrix-vector product (library Matrix3.multiplyByVector). -/
def matVec (m : Mat3) (v : Cart3) : Cart3 :=
  ⟨m.m00 * v.x + m.m01 * v.y + m.m02 * v.z,
   m.m10 * v.x + m.m11 * v.y + m.m12 * v.z,
   m.m20 * v.x + m.m21 * v.y + m.m22 * v.z⟩

/-- Build a matrix from its three columns (the source builds its rotation with
three Matrix3.setColumn calls). -/
def mat3FromColumns (c0 c1 c2 : Cart3) : Mat3 :=
  ⟨c0.x, c1.x, c2.x, c0.y, c1.y, c2.y, c0.z, c1.z, c2.z⟩

/-- Column 1 of a matrix (the "North" column of an east-north-up basis). -/
def mat3Col1 (m : Mat3) : Cart3 := ⟨m.m01, m.m11, m.m21⟩

/-- Model of the library Matrix3.IDENTITY. -/
def mat3Identity : Mat3 := ⟨1, 0, 0, 0, 1, 0, 0, 0, 1⟩

/-- Model of the library type Quaternion. -/
@[ext]
structure Quat where
  x : ℝ
  y : ℝ
  z : ℝ
  w : ℝ

/-- Model of the library Quaternion.IDENTITY, the quaternion (0,0,0,1). -/
def identityQuat : Quat := ⟨0, 0, 0, 1⟩

/-- Model of the library Quaternion.fromAxisAngle: the routine normalizes the
axis, scales it by sin of the half angle and takes cos of the half angle as
the scalar part. -/
noncomputable def quatFromAxisAngle (axis : Cart3) (angle : ℝ) : Quat :=
  ⟨(normalizeC axis).x * Real.sin (angle / 2),
   (normalizeC axis).y * Real.sin (angle / 2),
   (normalizeC axis).z * Real.sin (angle / 2),
   Real.cos (angle / 2)⟩

/-- Model of the library Matrix3.fromQuaternion (standard rotation matrix of a
unit quaternion, row-major entries exactly as in the library source). -/
def mat3FromQuaternion (q : Quat) : Mat3 :=
  ⟨q.x * q.x - q.y * q.y - q.z * q.z + q.w * q.w,
   2 * (q.x * q.y - q.z * q.w),
   2 * (q.x * q.z + q.y * q.w),
   2 * (q.x * q.y + q.z * q.w),
   -(q.x * q.x) + q.y * q.y - q.z * q.z + q.w * q.w,
   2 * (q.y * q.z - q.x * q.w),
   2 * (q.x * q.z - q.y * q.w),
   2 * (q.y * q.z + q.x * q.w),
   -(q.x * q.x) - q.y * q.y + q.z * q.z + q.w * q.w⟩

/-- Model of the library Quaternion.fromRotationMatrix (Shepperd's method,
with the library's branch structure and sign conventions). -/
noncomputable def quatFromRotationMatrix (m : Mat3) : Quat :=
  if 0 < m.m00 + m.m11 + m.m22 then
    ⟨(m.m21 - m.m12) * (0.5 / Real.sqrt (m.m00 + m.m11 + m.m22 + 1)),
     (m.m02 - m.m20) * (0.5 / Real.sqrt (m.m00 + m.m11 + m.m22 + 1)),
     (m.m10 - m.m01) * (0.5 / Real.sqrt (m.m00 + m.m11 + m.m22 + 1)),
     0.5 * Real.sqrt (m.m00 + m.m11 + m.m22 + 1)⟩
  else if m.m22 > m.m00 ∧ m.m22 > m.m11 then
    ⟨-((m.m20 + m.m02) * (0.5 / Real.sqrt (m.m22 - m.m00 - m.m11 + 1))),
     -((m.m21 + m.m12) * (0.5 / Real.sqrt (m.m22 - m.m00 - m.m11 + 1))),
     -(0.5 * Real.sqrt (m.m22 - m.m00 - m.m11 + 1)),
     (m.m01 - m.m10) * (0.5 / Real.sqrt (m.m22 - m.m00 - m.m11 + 1))⟩
  else if m.m11 > m.m00 then
    ⟨-((m.m10 + m.m01) * (0.5 / Real.sqrt (m.m11 - m.m22 - m.m00 + 1))),
     -(0.5 * Real.sqrt (m.m11 - m.m22 - m.m00 + 1)),
     -((m.m12 + m.m21) * (0.5 / Real.sqrt (m.m11 - m.m22 - m.m00 + 1))),
     (m.m20 - m.m02) * (0.5 / Real.sqrt (m.m11 - m.m22 - m.m00 + 1))⟩
  else
    ⟨-(0.5 * Real.sqrt (m.m00 - m.m11 - m.m22 + 1)),
     -((m.m01 + m.m10) * (0.5 / Real.sqrt (m.m00 - m.m11 - m.m22 + 1))),
     -((m.m02 + m.m20) * (0.5 / Real.sqrt (m.m00 - m.m11 - m.m22 + 1))),
     (m.m12 - m.m21) * (0.5 / Real.sqrt (m.m00 - m.m11 - m.m22 + 1))⟩

/-- Model of the library CesiumMath.toRadians. -/
noncomputable def toRadians (d : ℝ) : ℝ := d * Real.pi / 180

/-- Truncation toward zero, as the JavaScript remainder operator uses. -/
noncomputable def jsTrunc (x : ℝ) : ℤ := if 0 ≤ x then ⌊x⌋ else ⌈x⌉

/-- The JavaScript remainder operator on reals (sign follows the dividend). -/
noncomputable def jsMod (x y : ℝ) : ℝ := x - y * (jsTrunc (x / y) : ℝ)

/-- Azimuth normalization ((azimuth % 360) + 360) % 360 from the source. -/
noncomputable def normalizedAzimuth (a : ℝ) : ℝ := jsMod (jsMod a 360 + 360) 360

/-- Helper: a vector whose squared magnitude is 1 is fixed by normalization. -/
theorem normalizeC_of_magSq_one (v : Cart3) (h : magnitudeSquared v = 1) :
    normalizeC v = v := by
  unfold normalizeC magnitude
  rw [h, Real.sqrt_one]
  ext <;> simp

theorem toRadians_zero : toRadians 0 = 0 := by
  unfold toRadians; ring

theorem toRadians_half (d : ℝ) : toRadians (d / 2) = toRadians d / 2 := by
  unfold toRadians; ring

theorem toRadians_neg (d : ℝ) : toRadians (-d) = -toRadians d := by
  unfold toRadians; ring

theorem normalizedAzimuth_zero : normalizedAzimuth 0 = 0 := by
  unfold normalizedAzimuth jsMod jsTrunc
  norm_num

/-! ### Frustum outline generator (SensorFrustum.outlinePositions) -/

/-- One world-space frustum corner of the outline: rotate the local corner
(tan(relH)·range, tan(relV)·range, −range) by the orientation rotation and
translate by the origin. -/
noncomputable def outlineCorner (origin : Cart3) (rot : Mat3) (range relH relV : ℝ) : Cart3 :=
  addC origin (matVec rot ⟨Real.tan relH * range, Real.tan relV * range, -range⟩)

/-- SensorFrustum.outlinePositions: corners at relative angles drawn from the
FOV in radians divided by 3, in order bottom-left, bottom-right, top-right,
top-left; then 4 apex spokes followed by the 4 base edges as disjoint
segment endpoint pairs. -/
noncomputable def outlinePositions (origin : Cart3) (q : Quat) (hfov vfov range : ℝ) :
    List Cart3 :=
  let halfHFOV := toRadians hfov / 3
  let halfVFOV := toRadians vfov / 3
  let rot := mat3FromQuaternion q
  let c0 := outlineCorner origin rot range (-halfHFOV) (-halfVFOV)
  let c1 := outlineCorner origin rot range halfHFOV (-halfVFOV)
  let c2 := outlineCorner origin rot range halfHFOV halfVFOV
  let c3 := outlineCorner origin rot range (-halfHFOV) halfVFOV
  [origin, c0, origin, c1, origin, c2, origin, c3,
   c0, c1, c1, c2, c2, c3, c3, c0]

/-- Reference outline, written from the specification text: each corner is
origin + R·(tan(relH)·range, tan(relV)·range, −range), the half-angles are
the FOV in radians divided by 3 (not 2), the corner order is bottom-left,
bottom-right, top-right, top-left, and the emitted list is the 4 spokes
(origin, corner) followed by the base cycle as disjoint pairs. -/
noncomputable def outlineReference (origin : Cart3) (q : Quat) (hfov vfov range : ℝ) :
    List Cart3 :=
  let relH := toRadians hfov / 3
  let relV := toRadians vfov / 3
  let rotation := mat3FromQuaternion q
  let corner := fun (h v : ℝ) =>
    addC origin (matVec rotation ⟨Real.tan h * range, Real.tan v * range, -range⟩)
  let bottomLeft := corner (-relH) (-relV)
  let bottomRight := corner relH (-relV)
  let topRight := corner relH relV
  let topLeft := corner (-relH) relV
  [origin, bottomLeft, origin, bottomRight, origin, topRight, origin, topLeft,
   bottomLeft, bottomRight, bottomRight, topRight, topRight, topLeft, topLeft, bottomLeft]

/-! ### SensorShadow: sensor parameters and perspective frustum -/

/-- Model of the SensorView interface of SensorShadowLogic; a null range is an
empty option. -/
structure SensorView where
  azimuth : ℝ
  elevation : ℝ
  hfov : ℝ
  range : Option ℝ
  vfov : ℝ

/-- Constant DEFAULT_NEAR_PLANE of SensorShadowLogic. -/
def DEFAULT_NEAR_PLANE : ℝ := 5

/-- Constant DEFAULT_VISUALIZATION_RANGE of SensorShadowLogic (default range
when the sensor range is null). -/
def DEFAULT_VISUALIZATION_RANGE : ℝ := 2000

/-- Constant DEFAULT_RANGE of SensorShadowArea. -/
def DEFAULT_RANGE : ℝ := 1000

/-- Constant MAX_CAMERA_DISTANCE of SensorShadowArea, in meters. -/
def MAX_CAMERA_DISTANCE : ℝ := 2000

/-- SensorShadow._getEffectiveRange: the sensor range when non-null, otherwise
DEFAULT_VISUALIZATION_RANGE. -/
def getEffectiveRange (s : SensorView) : ℝ :=
  s.range.getD DEFAULT_VISUALIZATION_RANGE

/-- Model of the library PerspectiveFrustum: the four scalar parameters the
source sets (fov, aspect ratio, near, far). -/
structure PerspectiveFrustumModel where
  fov : ℝ
  aspect : ℝ
  near : ℝ
  far : ℝ

/-- SensorShadow._createFrustum: vertical FOV in radians as fov, aspect ratio
tan(toRadians(hfov/2)) / tan(toRadians(vfov/2)), fixed near plane, far plane
the effective range. -/
noncomputable def createFrustum (s : SensorView) (effectiveRange : ℝ) :
    PerspectiveFrustumModel :=
  ⟨toRadians s.vfov,
   Real.tan (toRadians (s.hfov / 2)) / Real.tan (toRadians (s.vfov / 2)),
   DEFAULT_NEAR_PLANE,
   effectiveRange⟩

/-- Claim C2: for every orientation, FOV pair, range and origin, the outline
generator's output equals the reference list of the specification: 16 points,
4 spokes then 4 base-edge pairs, corners at origin + R·(tan(relH)·range,
tan(relV)·range, −range) with half-angles equal to the FOV in radians divided
by 3, in order bottom-left, bottom-right, top-right, top-left. -/
theorem claim_C2_outline_matches_reference
    (origin : Cart3) (q : Quat) (hfov vfov range : ℝ) :
    outlinePositions origin q hfov vfov range = outlineReference origin q hfov vfov range
    ∧ (outlinePositions origin q hfov vfov range).length = 16 := by
  exact ⟨rfl, rfl⟩

/-- Claim C3: the shadow camera's perspective frustum has fov equal to the
vertical FOV in radians, aspect ratio tan(hfov/2)/tan(vfov/2) (half-angles in
radians), the fixed near plane 5, and far plane equal to the effective range,
which is the sensor range when non-null and DEFAULT_VISUALIZATION_RANGE = 2000
otherwise. -/
theorem claim_C3_shadow_frustum_parameters (s : SensorView) :
    (createFrustum s (getEffectiveRange s)).fov = toRadians s.vfov
    ∧ (createFrustum s (getEffectiveRange s)).aspect =
        Real.tan (toRadians s.hfov / 2) / Real.tan (toRadians s.vfov / 2)
    ∧ (createFrustum s (getEffectiveRange s)).near = DEFAULT_NEAR_PLANE
    ∧ DEFAULT_NEAR_PLANE = 5
    ∧ (createFrustum s (getEffectiveRange s)).far = getEffectiveRange s
    ∧ getEffectiveRange s = s.range.getD DEFAULT_VISUALIZATION_RANGE
    ∧ DEFAULT_VISUALIZATION_RANGE = 2000 := by
  refine ⟨rfl, ?_, rfl, rfl, rfl, rfl, rfl⟩
  show Real.tan (toRadians (s.hfov / 2)) / Real.tan (toRadians (s.vfov / 2)) = _
  rw [toRadians_half, toRadians_half]

/-! ### Orientation solvers: Variant A (SensorFrustum) and the shadow-camera
solver (SensorShadow._calculateCameraVectors) -/

/-- Variant A local direction (SensorFrustum): azimuth clockwise from local
North, elevation positive up, (sin(az)·cos(el), cos(az)·cos(el), sin(el)).
Arguments are in radians. -/
noncomputable def variantALocalDirection (azRad elRad : ℝ) : Cart3 :=
  ⟨Real.sin azRad * Real.cos elRad,
   Real.cos azRad * Real.cos elRad,
   Real.sin elRad⟩

/-- Horizontal direction of _calculateCameraVectors: (sin(az), cos(az), 0). -/
noncomputable def horizontalDirection (azRad : ℝ) : Cart3 :=
  ⟨Real.sin azRad, Real.cos azRad, 0⟩

/-- Perpendicular axis of _calculateCameraVectors: the horizontal direction
rotated 90 degrees clockwise, (cos(az), −sin(az), 0). -/
noncomputable def perpendicularAxis (azRad : ℝ) : Cart3 :=
  ⟨Real.cos azRad, -Real.sin azRad, 0⟩

/-- Elevation rotation matrix of _calculateCameraVectors: rotation by the
elevation angle about the normalized perpendicular axis, built through
Quaternion.fromAxisAngle and Matrix3.fromQuaternion as in the source. -/
noncomputable def elevationMatrix (azRad elRad : ℝ) : Mat3 :=
  mat3FromQuaternion (quatFromAxisAngle (normalizeC (perpendicularAxis azRad)) elRad)

/-- Local direction produced by _calculateCameraVectors before the ENU
transform: the elevation rotation applied to the horizontal direction. -/
noncomputable def calculateCameraVectorsLocalDirection (azRad elRad : ℝ) : Cart3 :=
  matVec (elevationMatrix azRad elRad) (horizontalDirection azRad)

theorem magSq_perpendicularAxis (az : ℝ) :
    magnitudeSquared (perpendicularAxis az) = 1 := by
  unfold magnitudeSquared perpendicularAxis
  have h := Real.sin_sq_add_cos_sq az
  ring_nf
  nlinarith [h]

theorem normalizeC_perpendicularAxis (az : ℝ) :
    normalizeC (perpendicularAxis az) = perpendicularAxis az :=
  normalizeC_of_magSq_one _ (magSq_perpendicularAxis az)

/-- The shadow solver's local direction coincides with Variant A's formula at
the same azimuth and elevation: no azimuth offset and no elevation sign flip
happen inside the solver. -/
theorem calculateCameraVectorsLocalDirection_eq_variantA (az el : ℝ) :
    calculateCameraVectorsLocalDirection az el = variantALocalDirection az el := by
  unfold calculateCameraVectorsLocalDirection elevationMatrix
  rw [normalizeC_perpendicularAxis]
  unfold quatFromAxisAngle
  rw [normalizeC_perpendicularAxis]
  unfold mat3FromQuaternion matVec horizontalDirection perpendicularAxis variantALocalDirection
  have h1 := Real.sin_sq_add_cos_sq az
  have h2 := Real.sin_sq_add_cos_sq (el / 2)
  have hs : Real.sin el = 2 * Real.sin (el / 2) * Real.cos (el / 2) := by
    have h := Real.sin_two_mul (el / 2)
    rw [show (2 : ℝ) * (el / 2) = el from by ring] at h
    exact h
  have hc : Real.cos el = 2 * Real.cos (el / 2) ^ 2 - 1 := by
    have h := Real.cos_two_mul (el / 2)
    rw [show (2 : ℝ) * (el / 2) = el from by ring] at h
    exact h
  ext
  · show _ = Real.sin az * Real.cos el
    rw [hc]
    linear_combination (-(Real.sin az) * Real.sin (el / 2) ^ 2) * h1 + (-(Real.sin az)) * h2
  · show _ = Real.cos az * Real.cos el
    rw [hc]
    linear_combination (-(Real.cos az) * Real.sin (el / 2) ^ 2) * h1 + (-(Real.cos az)) * h2
  · show _ = Real.sin el
    rw [hs]
    linear_combination (2 * Real.sin (el / 2) * Real.cos (el / 2)) * h1

/-! ### The SensorShadowArea caller chain -/

/-- Model of the CurrentViewSensorInfo interface of SensorShadowArea; an
undefined range is an empty option. -/
structure CurrentViewSensorInfo where
  hfov : ℝ
  vfov : ℝ
  range : Option ℝ
  azimuth : ℝ
  elevation : ℝ

/-- The memoizedCurrentViewSensorInfo step of SensorShadowArea: all fields are
passed through except elevation, which is negated. -/
def memoizedCurrentViewSensorInfo (info : CurrentViewSensorInfo) : CurrentViewSensorInfo :=
  ⟨info.hfov, info.vfov, info.range, info.azimuth, -info.elevation⟩

/-- The sensorParameters object built by SensorShadowArea's sensorConfig memo:
hfov, vfov and azimuth pass through, an undefined range is replaced by
DEFAULT_RANGE, and the (already negated) elevation passes through without a
second negation. -/
def areaSensorParameters (info : CurrentViewSensorInfo) : SensorView :=
  ⟨(memoizedCurrentViewSensorInfo info).azimuth,
   (memoizedCurrentViewSensorInfo info).elevation,
   (memoizedCurrentViewSensorInfo info).hfov,
   some ((memoizedCurrentViewSensorInfo info).range.getD DEFAULT_RANGE),
   (memoizedCurrentViewSensorInfo info).vfov⟩

/-- Local direction of the shadow camera end-to-end: SensorShadowArea builds
the sensor parameters and SensorShadow._createShadowMap feeds their azimuth
and elevation (in degrees) to _calculateCameraVectors. -/
noncomputable def shadowChainLocalDirection (info : CurrentViewSensorInfo) : Cart3 :=
  calculateCameraVectorsLocalDirection
    (toRadians (areaSensorParameters info).azimuth)
    (toRadians (areaSensorParameters info).elevation)

/-- Counterexample to claim C1 as stated: the shadow-camera solver does NOT
offset the azimuth by +180 degrees before conversion to a local direction.
At azimuth 0 and elevation 0 the solver's local direction is (0,1,0), while
the +180-degree-offset Variant A direction is (0,−1,0). -/
theorem claim_C1_counterexample :
    ¬ (calculateCameraVectorsLocalDirection (toRadians 0) (toRadians 0) =
       variantALocalDirection (toRadians (0 + 180)) (toRadians 0)) := by
  intro h
  rw [calculateCameraVectorsLocalDirection_eq_variantA] at h
  have hy := congrArg Cart3.y h
  rw [toRadians_zero] at hy
  rw [show ((0 : ℝ) + 180) = 180 from by norm_num] at hy
  rw [show toRadians 180 = Real.pi from by unfold toRadians; ring] at hy
  unfold variantALocalDirection at hy
  simp only [Real.cos_zero, Real.cos_pi, Real.sin_zero] at hy
  norm_num at hy

/-- Claim C1 as amended: the shadow-camera solver uses the same azimuth
convention as Variant A (no +180-degree offset): its local direction equals
Variant A's formula at the same azimuth and elevation, so the solver itself
applies no elevation sign flip; and end-to-end through SensorShadowArea the
elevation is negated exactly once (by the caller), so the chain's local
direction is Variant A's formula at the original azimuth and the negated
elevation. -/
theorem claim_C1_amended (az el : ℝ) (info : CurrentViewSensorInfo) :
    calculateCameraVectorsLocalDirection az el = variantALocalDirection az el
    ∧ shadowChainLocalDirection info =
        variantALocalDirection (toRadians info.azimuth) (-(toRadians info.elevation)) := by
  refine ⟨calculateCameraVectorsLocalDirection_eq_variantA az el, ?_⟩
  unfold shadowChainLocalDirection areaSensorParameters memoizedCurrentViewSensorInfo
  rw [calculateCameraVectorsLocalDirection_eq_variantA]
  rw [show toRadians (-info.elevation) = -(toRadians info.elevation) from toRadians_neg _]

/-! ### Geodesy models: Cartesian3.fromDegrees and eastNorthUpToFixedFrame -/

/-- WGS84 semimajor axis in meters (library Ellipsoid.WGS84). -/
def wgs84a : ℝ := 6378137

/-- WGS84 semiminor axis in meters (library Ellipsoid.WGS84). -/
def wgs84b : ℝ := 6356752.3142451793

/-- Squared WGS84 radii (library ellipsoid radiiSquared). -/
noncomputable def wgs84RadiiSquared : Cart3 := ⟨wgs84a ^ 2, wgs84a ^ 2, wgs84b ^ 2⟩

/-- Reciprocal squared WGS84 radii (library ellipsoid oneOverRadiiSquared). -/
noncomputable def wgs84OneOverRadiiSquared : Cart3 :=
  ⟨1 / wgs84a ^ 2, 1 / wgs84a ^ 2, 1 / wgs84b ^ 2⟩

/-- Geodetic surface normal from the geodetic angles, the normalized first
step of the library Cartesian3.fromRadians. -/
noncomputable def geodeticNormalRadians (lonRad latRad : ℝ) : Cart3 :=
  normalizeC ⟨Real.cos latRad * Real.cos lonRad,
              Real.cos latRad * Real.sin lonRad,
              Real.sin latRad⟩

/-- The normal scaled componentwise by the squared radii, the second step of
the library Cartesian3.fromRadians. -/
noncomputable def radiiScaledNormal (lonRad latRad : ℝ) : Cart3 :=
  ⟨wgs84RadiiSquared.x * (geodeticNormalRadians lonRad latRad).x,
   wgs84RadiiSquared.y * (geodeticNormalRadians lonRad latRad).y,
   wgs84RadiiSquared.z * (geodeticNormalRadians lonRad latRad).z⟩

/-- The scaling factor gamma of the library Cartesian3.fromRadians. -/
noncomputable def cartesianGamma (lonRad latRad : ℝ) : ℝ :=
  Real.sqrt (dotC (geodeticNormalRadians lonRad latRad) (radiiScaledNormal lonRad latRad))

/-- Model of the library Cartesian3.fromRadians: surface normal from the
geodetic angles, scaled onto the ellipsoid surface, plus height along the
normal. -/
noncomputable def cartesianFromRadians (lonRad latRad height : ℝ) : Cart3 :=
  addC
    ⟨(radiiScaledNormal lonRad latRad).x / cartesianGamma lonRad latRad,
     (radiiScaledNormal lonRad latRad).y / cartesianGamma lonRad latRad,
     (radiiScaledNormal lonRad latRad).z / cartesianGamma lonRad latRad⟩
    (smulC height (geodeticNormalRadians lonRad latRad))

/-- Model of the library Cartesian3.fromDegrees. -/
noncomputable def cartesianFromDegrees (lon lat height : ℝ) : Cart3 :=
  cartesianFromRadians (toRadians lon) (toRadians lat) height

/-- Model of the library ellipsoid geodeticSurfaceNormal: normalize the
position scaled componentwise by the reciprocal squared radii. -/
noncomputable def geodeticSurfaceNormal (p : Cart3) : Cart3 :=
  normalizeC ⟨p.x * wgs84OneOverRadiiSquared.x,
              p.y * wgs84OneOverRadiiSquared.y,
              p.z * wgs84OneOverRadiiSquared.z⟩

/-- Model of the rotation part of the library Transforms.eastNorthUpToFixedFrame
at a position away from the poles: up is the geodetic surface normal, east is
the normalized (−y, x, 0), north is up × east; the columns are east, north,
up. -/
noncomputable def enuRotationOfPosition (p : Cart3) : Mat3 :=
  mat3FromColumns
    (normalizeC ⟨-p.y, p.x, 0⟩)
    (crossC (geodeticSurfaceNormal p) (normalizeC ⟨-p.y, p.x, 0⟩))
    (geodeticSurfaceNormal p)

/-! ### SensorShadow: full camera-vector computation and camera creation -/

/-- Local up vector (0,0,1) used by both orientation solvers. -/
def localUpC : Cart3 := ⟨0, 0, 1⟩

/-- The rotated local up vector of _calculateCameraVectors: the elevation
rotation applied to (0,0,1). -/
noncomputable def localUpRotated (azRad elRad : ℝ) : Cart3 :=
  matVec (elevationMatrix azRad elRad) localUpC

/-- The direction, up and right vectors a camera carries. -/
structure CameraVectors where
  direction : Cart3
  up : Cart3
  right : Cart3

/-- SensorShadow._calculateCameraVectors: build the local direction and local
rotated up, transform both to the fixed frame through the ENU rotation at the
position, take right as the cross product, normalize, and re-orthogonalize
up as right × direction. -/
noncomputable def calculateCameraVectors (position : Cart3) (azDeg elDeg : ℝ) :
    CameraVectors :=
  let enuRot := enuRotationOfPosition position
  let direction0 := matVec enuRot
    (calculateCameraVectorsLocalDirection (toRadians azDeg) (toRadians elDeg))
  let up0 := matVec enuRot (localUpRotated (toRadians azDeg) (toRadians elDeg))
  let right := normalizeC (crossC direction0 up0)
  let direction := normalizeC direction0
  ⟨direction, normalizeC (crossC right direction), right⟩

/-- Model of the light camera assembled in SensorShadow._createShadowMap. -/
structure CameraModel where
  position : Cart3
  direction : Cart3
  up : Cart3
  right : Cart3
  frustum : PerspectiveFrustumModel

/-- SensorShadow._createShadowMap, camera-construction part: with no available
position the method warns and returns without a camera; otherwise it always
assembles a camera from the computed vectors and the perspective frustum
(no field-of-view validation of any kind is performed). -/
noncomputable def createShadowMapCamera (positionVector : Option Cart3) (s : SensorView) :
    Option CameraModel :=
  match positionVector with
  | none => none
  | some pos =>
      some ⟨pos,
            (calculateCameraVectors pos s.azimuth s.elevation).direction,
            (calculateCameraVectors pos s.azimuth s.elevation).up,
            (calculateCameraVectors pos s.azimuth s.elevation).right,
            createFrustum s (getEffectiveRange s)⟩

/-! ### FrustumVisualizer: validation, safe normalization, orientation chain -/

/-- Constant VECTOR_EPSILON of FrustumVisualizer (CesiumMath.EPSILON10). -/
def VECTOR_EPSILON : ℝ := 1e-10

/-- FrustumVisualizer.safeNormalize: fail on a (near-)zero-length vector,
otherwise normalize. -/
noncomputable def safeNormalize (v : Cart3) : Option Cart3 :=
  if magnitudeSquared v ≤ VECTOR_EPSILON then none else some (normalizeC v)

/-- Local direction of FrustumVisualizer's orientation memo: Variant A's
formula at the normalized azimuth offset by +180 degrees and the (caller
negated) elevation. -/
noncomputable def fvLocalDirection (normAz normEl : ℝ) : Cart3 :=
  ⟨Real.sin (toRadians (normAz + 180)) * Real.cos (toRadians normEl),
   Real.cos (toRadians (normAz + 180)) * Real.cos (toRadians normEl),
   Real.sin (toRadians normEl)⟩

/-- FrustumVisualizer's orientation solver: the safeNormalize chain of the
orientation memo. Every failure short-circuits to an empty result (the
source throws and catches within the memo). -/
noncomputable def fvSolveOrientation (normAz normEl : ℝ) (enu : Mat3) : Option Quat :=
  (safeNormalize (fvLocalDirection normAz normEl)).bind fun unitLocalDir =>
  (safeNormalize (crossC unitLocalDir localUpC)).bind fun unitLocalRight =>
  (safeNormalize (crossC unitLocalRight unitLocalDir)).bind fun unitLocalUp =>
  (safeNormalize (matVec enu unitLocalDir)).bind fun unitDirection =>
  (safeNormalize (matVec enu unitLocalRight)).bind fun unitRight =>
  (safeNormalize (matVec enu unitLocalUp)).map fun unitUp =>
  quatFromRotationMatrix (mat3FromColumns unitRight unitUp (negC unitDirection))

/-- FrustumVisualizer's orientation value: the solver's result, or the catch
branch's Quaternion.IDENTITY when the solver failed. -/
noncomputable def fvOrientation (normAz normEl : ℝ) (enu : Mat3) : Quat :=
  (fvSolveOrientation normAz normEl enu).getD identityQuat

/-- The props of the FrustumVisualizer component. -/
structure FvProps where
  lat : ℝ
  lon : ℝ
  hae : Option ℝ
  azimuth : ℝ
  elevation : ℝ
  hfov : ℝ
  vfov : ℝ
  range : ℝ
  isDeviceSelected : Bool

/-- FrustumVisualizer's isInputValid memo: both FOVs strictly inside (0,180)
and a positive range. (The source also checks Number.isFinite on the angles
and coordinates; every real of the model is finite.) -/
def fvIsInputValid (p : FvProps) : Prop :=
  (0 < p.hfov ∧ p.hfov < 180) ∧ (0 < p.vfov ∧ p.vfov < 180) ∧ 0 < p.range

open scoped Classical

/-- FrustumVisualizer's origin: Cartesian3.fromDegrees of the point, default
height 0. -/
noncomputable def fvOrigin (p : FvProps) : Cart3 :=
  cartesianFromDegrees p.lon p.lat (p.hae.getD 0)

/-- FrustumVisualizer's ENU rotation at the origin. -/
noncomputable def fvEnu (p : FvProps) : Mat3 :=
  enuRotationOfPosition (fvOrigin p)

/-- FrustumVisualizer's computed orientation: the solver applied to the
normalized azimuth, the negated elevation, and the ENU rotation, with the
identity quaternion substituted on failure. -/
noncomputable def fvOrientationOf (p : FvProps) : Quat :=
  fvOrientation (normalizedAzimuth p.azimuth) (-p.elevation) (fvEnu p)

/-- FrustumVisualizer's frustum memo: no frustum when the input is invalid or
the vertical half-angle tangent vanishes; otherwise a perspective frustum
with the vertical FOV, aspect ratio tan(hfov/2)/tan(vfov/2), near plane 0.5
and far plane equal to the range. -/
noncomputable def fvFrustumOf (p : FvProps) : Option PerspectiveFrustumModel :=
  if fvIsInputValid p then
    if Real.tan (toRadians p.vfov / 2) = 0 then none
    else some ⟨toRadians p.vfov,
               Real.tan (toRadians p.hfov / 2) / Real.tan (toRadians p.vfov / 2),
               0.5, p.range⟩
  else none

/-- FrustumVisualizer's geometryInstances memo: no geometry when there is no
frustum or when the computed orientation equals the identity quaternion;
otherwise a geometry instance is produced (its payload does not matter for
the properties below). -/
noncomputable def fvGeometryInstances (p : FvProps) : Option Unit :=
  if fvFrustumOf p = none ∨ fvOrientationOf p = identityQuat then none
  else some ()

/-- FrustumVisualizer's render result: nothing unless the input is valid, a
geometry instance exists, and the device is selected. -/
noncomputable def fvRender (p : FvProps) : Option Unit :=
  if ¬ fvIsInputValid p ∨ fvGeometryInstances p = none ∨ p.isDeviceSelected = false
  then none
  else some ()

/-- Claim C4: if the solver chain fails, the caller substitutes the identity
orientation (and the solver is a total function: no exception escapes it).
Moreover a (near-)zero-length vector makes the chain fail: at the first step
when the local direction is degenerate, and at the second step when the
first step succeeded but the right-vector cross product is degenerate. -/
theorem claim_C4_degenerate_orientation (a e : ℝ) (m : Mat3) :
    (fvSolveOrientation a e m = none → fvOrientation a e m = identityQuat)
    ∧ (magnitudeSquared (fvLocalDirection a e) ≤ VECTOR_EPSILON →
        fvSolveOrientation a e m = none)
    ∧ (VECTOR_EPSILON < magnitudeSquared (fvLocalDirection a e) →
        magnitudeSquared (crossC (normalizeC (fvLocalDirection a e)) localUpC) ≤
          VECTOR_EPSILON →
        fvSolveOrientation a e m = none) := by
  refine ⟨?_, ?_, ?_⟩
  · intro h
    unfold fvOrientation
    rw [h]
    rfl
  · intro h
    unfold fvSolveOrientation safeNormalize
    rw [if_pos h]
    rfl
  · intro h1 h2
    have e1 : safeNormalize (fvLocalDirection a e) =
        some (normalizeC (fvLocalDirection a e)) := by
      unfold safeNormalize
      rw [if_neg (not_le.mpr h1)]
    have e2 : safeNormalize (crossC (normalizeC (fvLocalDirection a e)) localUpC) =
        none := by
      unfold safeNormalize
      rw [if_pos h2]
    unfold fvSolveOrientation
    rw [e1]
    simp [e2]

theorem normalize001 : normalizeC (⟨0, 0, 1⟩ : Cart3) = ⟨0, 0, 1⟩ :=
  normalizeC_of_magSq_one _ (by unfold magnitudeSquared; norm_num)

theorem fvLocalDirection_0_90 : fvLocalDirection 0 90 = ⟨0, 0, 1⟩ := by
  unfold fvLocalDirection
  rw [show ((0 : ℝ) + 180) = 180 from by norm_num]
  rw [show toRadians 180 = Real.pi from by unfold toRadians; ring]
  rw [show toRadians 90 = Real.pi / 2 from by unfold toRadians; ring]
  simp

/-- Witness for claim C4: azimuth 0 with normalized elevation 90 makes the
local direction point straight up, the right-vector cross product vanish,
the solver fail, and the substituted orientation equal the identity. -/
theorem claim_C4_witness :
    fvSolveOrientation 0 90 mat3Identity = none
    ∧ fvOrientation 0 90 mat3Identity = identityQuat := by
  have h := claim_C4_degenerate_orientation 0 90 mat3Identity
  have hmag : VECTOR_EPSILON < magnitudeSquared (fvLocalDirection 0 90) := by
    rw [fvLocalDirection_0_90]
    unfold magnitudeSquared VECTOR_EPSILON
    norm_num
  have hcross : magnitudeSquared (crossC (normalizeC (fvLocalDirection 0 90)) localUpC) ≤
      VECTOR_EPSILON := by
    rw [fvLocalDirection_0_90, normalize001]
    unfold crossC localUpC magnitudeSquared VECTOR_EPSILON
    norm_num
  have hsolve := h.2.2 hmag hcross
  exact ⟨hsolve, h.1 hsolve⟩

/-- Helper for the witnesses below: the solver fails at normalized azimuth 0
and normalized elevation 90 whatever the ENU matrix is. -/
theorem fvSolve_0_90_none (m : Mat3) : fvSolveOrientation 0 90 m = none := by
  have h1 : safeNormalize (fvLocalDirection 0 90) = some ⟨0, 0, 1⟩ := by
    rw [fvLocalDirection_0_90]
    unfold safeNormalize
    rw [if_neg (by unfold magnitudeSquared VECTOR_EPSILON; norm_num), normalize001]
  have h2 : safeNormalize (crossC (⟨0, 0, 1⟩ : Cart3) localUpC) = none := by
    unfold safeNormalize
    rw [if_pos (by unfold crossC localUpC magnitudeSquared VECTOR_EPSILON; norm_num)]
  unfold fvSolveOrientation
  rw [h1]
  simp [h2]

/-- Claim C9: whenever FrustumVisualizer's computed orientation equals the
identity quaternion — whether the degeneracy fallback substituted it or the
computation genuinely produced it — no solid-frustum geometry is built and
nothing is rendered; the public output is the same in both cases. -/
theorem claim_C9_identity_orientation_renders_nothing (p : FvProps) :
    fvOrientationOf p = identityQuat →
    fvGeometryInstances p = none ∧ fvRender p = none := by
  intro h
  have hg : fvGeometryInstances p = none := by
    unfold fvGeometryInstances
    rw [if_pos (Or.inr h)]
  refine ⟨hg, ?_⟩
  unfold fvRender
  rw [if_pos (Or.inr (Or.inl hg))]

/-- Concrete FrustumVisualizer props whose orientation degenerates: elevation
−90 is negated to a normalized elevation of 90, so the solver fails and the
identity fallback is produced. -/
noncomputable def exampleIdentityProps : FvProps :=
  ⟨0, 0, some 0, 0, -90, 60, 40, 1000, true⟩

/-- Witness for claim C9 at the concrete degenerate props. -/
theorem claim_C9_witness :
    fvGeometryInstances exampleIdentityProps = none
    ∧ fvRender exampleIdentityProps = none := by
  have horient : fvOrientationOf exampleIdentityProps = identityQuat := by
    unfold fvOrientationOf exampleIdentityProps
    rw [show -(-90 : ℝ) = 90 from by norm_num]
    rw [normalizedAzimuth_zero]
    unfold fvOrientation
    rw [fvSolve_0_90_none]
    rfl
  exact claim_C9_identity_orientation_renders_nothing exampleIdentityProps horient

/-- Counterexample to claim C5 as stated: for the degenerate input vfov = 0
the SHADOW-frustum construction does not yield "no camera": SensorShadow
performs no FOV validation, _createFrustum still returns a frustum (here
with fov = 0), and _createShadowMap still assembles a light camera. -/
noncomputable def exampleVfovZeroView : SensorView := ⟨0, 0, 60, some 1000, 0⟩

theorem claim_C5_counterexample :
    createShadowMapCamera (some ⟨wgs84a, 0, 0⟩) exampleVfovZeroView ≠ none
    ∧ (createFrustum exampleVfovZeroView (getEffectiveRange exampleVfovZeroView)).fov = 0 := by
  constructor
  · unfold createShadowMapCamera
    simp
  · show toRadians exampleVfovZeroView.vfov = 0
    rw [show exampleVfovZeroView.vfov = 0 from rfl, toRadians_zero]

/-- Claim C5 as amended: it is the FrustumVisualizer component that validates
field-of-view values; any FOV outside (0°,180°) — in particular vfov = 0 —
makes its frustum construction yield null and its geometry empty, with no
exception (the model is a total function). SensorShadow's frustum
construction performs no such validation and still yields a camera. -/
theorem claim_C5_amended (p : FvProps) :
    p.vfov ≤ 0 ∨ 180 ≤ p.vfov ∨ p.hfov ≤ 0 ∨ 180 ≤ p.hfov →
    fvFrustumOf p = none ∧ fvGeometryInstances p = none := by
  intro h
  have hinval : ¬ fvIsInputValid p := by
    unfold fvIsInputValid
    rintro ⟨⟨h1, h2⟩, ⟨h3, h4⟩, h5⟩
    rcases h with h | h | h | h <;> linarith
  have hf : fvFrustumOf p = none := by
    unfold fvFrustumOf
    rw [if_neg hinval]
  refine ⟨hf, ?_⟩
  unfold fvGeometryInstances
  rw [if_pos (Or.inl hf)]

/-- Concrete FrustumVisualizer props with vfov = 0. -/
noncomputable def exampleVfovZeroProps : FvProps :=
  ⟨0, 0, some 0, 0, 0, 60, 0, 1000, true⟩

/-- Witness for the amended claim C5 at vfov = 0. -/
theorem claim_C5_witness :
    fvFrustumOf exampleVfovZeroProps = none
    ∧ fvGeometryInstances exampleVfovZeroProps = none :=
  claim_C5_amended exampleVfovZeroProps
    (Or.inl (le_of_eq (show exampleVfovZeroProps.vfov = 0 from rfl)))

/-! ### SensorShadow lifecycle: destroy, isDestroyed, update -/

/-- Model of the library ShadowMap resource: the fields the source sets
(maximumDistance passed and re-set, normalOffset, terrain depth bias). -/
structure ShadowMapModel where
  maximumDistance : ℝ
  normalOffset : Bool
  terrainDepthBias : ℝ

/-- The shadow map as _createNewShadowMap builds it (maximumDistance is the
effective range) and _createShadowMap configures it right afterwards
(normalOffset true, terrain depth bias 0). -/
def createNewShadowMapModel (effectiveRange : ℝ) : ShadowMapModel :=
  ⟨effectiveRange, true, 0⟩

/-- The mutable state of a SensorShadow instance together with the scene
resources it owns: whether the preUpdate listener is registered, whether the
post-process stage is in the scene, whether the instance is in the scene's
primitive collection, the shadow-map resource it holds, and the destroyed
flag. -/
structure SensorShadowState where
  sensorParameters : SensorView
  cameraPosition : Option Cart3
  hasPreUpdateListener : Bool
  postProcess : Option Unit
  inPrimitives : Bool
  viewShadowMap : Option ShadowMapModel
  isDestroyed : Bool

/-- SensorShadow.destroy: remove the preUpdate listener when present, remove
the post-process stage when present, remove the instance from the scene's
primitives, and set the destroyed flag. The viewShadowMap field is not
touched by the source. -/
def destroy (st : SensorShadowState) : SensorShadowState :=
  let st1 := if st.hasPreUpdateListener
    then { st with hasPreUpdateListener := false } else st
  let st2 := if st1.postProcess.isSome then { st1 with postProcess := none } else st1
  { st2 with inPrimitives := false, isDestroyed := true }

theorem destroy_eq (st : SensorShadowState) :
    destroy st = { st with hasPreUpdateListener := false, postProcess := none,
                           inPrimitives := false, isDestroyed := true } := by
  rcases st with ⟨sp, cp, hl, pp, ip, vm, d⟩
  cases hl <;> cases pp <;> simp [destroy]

/-- The update-only path of SensorShadow._createShadowMap: with no available
position it returns unchanged (after a console warning); with no existing
shadow map the update-existing branch is skipped; otherwise the light camera
is rewritten in place and the shadow map's maximumDistance, normalOffset and
terrain bias are re-set from the current sensor parameters. -/
def applyCreateShadowMapUpdate (st : SensorShadowState) : SensorShadowState :=
  match st.cameraPosition with
  | none => st
  | some _ =>
      match st.viewShadowMap with
      | none => st
      | some _ =>
          { st with
            viewShadowMap := some (createNewShadowMapModel (getEffectiveRange st.sensorParameters)) }

/-- SensorShadow.update: a no-op when the instance is destroyed; otherwise
re-run the shadow-map update and push the (possibly absent) shadow map onto
the frame state's list. -/
def update (st : SensorShadowState) (frameShadowMaps : List (Option ShadowMapModel)) :
    SensorShadowState × List (Option ShadowMapModel) :=
  if st.isDestroyed then (st, frameShadowMaps)
  else
    ((applyCreateShadowMapUpdate st),
     frameShadowMaps ++ [(applyCreateShadowMapUpdate st).viewShadowMap])

theorem applyCreateShadowMapUpdate_isDestroyed (st : SensorShadowState) :
    (applyCreateShadowMapUpdate st).isDestroyed = st.isDestroyed := by
  unfold applyCreateShadowMapUpdate
  rcases st with ⟨sp, cp, hl, pp, ip, vm, d⟩
  cases cp <;> cases vm <;> rfl

/-- A concrete live SensorShadow state holding a shadow-map resource. -/
noncomputable def exampleActiveState : SensorShadowState :=
  ⟨⟨0, 0, 60, some 1000, 40⟩, some ⟨wgs84a, 0, 0⟩, true, some (), true,
   some (createNewShadowMapModel 1000), false⟩

/-- Counterexample to claim C6 as stated: destroy does NOT release the
shadow-map resource — after destroy the instance still holds exactly the
shadow map it held before (the source never destroys or clears
viewShadowMap). -/
theorem claim_C6_counterexample :
    (destroy exampleActiveState).viewShadowMap ≠ none
    ∧ (destroy exampleActiveState).viewShadowMap = some (createNewShadowMapModel 1000) := by
  rw [destroy_eq]
  exact ⟨by simp [exampleActiveState], by simp [exampleActiveState]⟩

/-- Claim C6 as amended: destroy is idempotent, removes the preUpdate hook,
removes the post-process stage, removes the instance from the scene's
primitives and marks it destroyed; update after destroy is a no-op; the
destroyed flag is terminal under update; but destroy leaves the shadow-map
resource exactly as it was (it is not released). -/
theorem claim_C6_amended (st : SensorShadowState)
    (fs : List (Option ShadowMapModel)) :
    destroy (destroy st) = destroy st
    ∧ (destroy st).hasPreUpdateListener = false
    ∧ (destroy st).postProcess = none
    ∧ (destroy st).inPrimitives = false
    ∧ (destroy st).isDestroyed = true
    ∧ (destroy st).viewShadowMap = st.viewShadowMap
    ∧ update (destroy st) fs = (destroy st, fs)
    ∧ (update st fs).1.isDestroyed = st.isDestroyed := by
  refine ⟨?_, ?_, ?_, ?_, ?_, ?_, ?_, ?_⟩
  · rw [destroy_eq st, destroy_eq]
  · rw [destroy_eq]
  · rw [destroy_eq]
  · rw [destroy_eq]
  · rw [destroy_eq]
  · rw [destroy_eq]
  · unfold update
    rw [if_pos (by rw [destroy_eq])]
  · unfold update
    by_cases hd : st.isDestroyed
    · rw [if_pos hd]
    · rw [if_neg hd, applyCreateShadowMapUpdate_isDestroyed]

/-! ### SensorShadowArea: distance gate and default range -/

/-- The camera-to-sensor distance SensorShadowArea computes: the square root
of the geodesic surface distance squared plus the height difference
squared. -/
noncomputable def combinedCameraDistance (surfaceDistance heightDifference : ℝ) : ℝ :=
  Real.sqrt (surfaceDistance ^ 2 + heightDifference ^ 2)

/-- The create-or-destroy effect of SensorShadowArea, summarized by the
SensorShadow instance (identified by its sensor parameters) alive after the
effect ran: no instance when the device is deselected, when the viewer,
shader or sensor config are unavailable or the shader failed (the ready
flag), or when the camera distance exceeds MAX_CAMERA_DISTANCE; otherwise
the previous instance is destroyed and a fresh one is created from the
current configuration. -/
noncomputable def sensorShadowAreaEffect (isDeviceSelected ready : Bool)
    (info : CurrentViewSensorInfo) (surfaceDistance heightDifference : ℝ) :
    Option SensorView :=
  if isDeviceSelected = false then none
  else if ready = false then none
  else if MAX_CAMERA_DISTANCE < combinedCameraDistance surfaceDistance heightDifference
    then none
  else some (areaSensorParameters info)

/-- Claim C7: whenever the combined camera distance exceeds
MAX_CAMERA_DISTANCE = 2000 m, the effect leaves no shadow camera: any
existing instance is torn down and none is created. -/
theorem claim_C7_distance_gate (isDeviceSelected ready : Bool)
    (info : CurrentViewSensorInfo) (surfaceDistance heightDifference : ℝ) :
    MAX_CAMERA_DISTANCE < combinedCameraDistance surfaceDistance heightDifference →
    sensorShadowAreaEffect isDeviceSelected ready info surfaceDistance heightDifference =
      none := by
  intro hgt
  unfold sensorShadowAreaEffect
  split_ifs with h1 h2 <;> rfl

/-- A concrete sensor configuration for the distance-gate witness. -/
noncomputable def exampleGateInfo : CurrentViewSensorInfo := ⟨60, 40, some 150, 0, -45⟩

/-- Witness for claim C7: a camera-to-sensor distance of 2001 m (surface
distance 2001 m, no height difference) exceeds MAX_CAMERA_DISTANCE = 2000 m
and yields no shadow camera. -/
theorem claim_C7_witness :
    MAX_CAMERA_DISTANCE < combinedCameraDistance 2001 0
    ∧ sensorShadowAreaEffect true true exampleGateInfo 2001 0 = none := by
  have hd : combinedCameraDistance 2001 0 = 2001 := by
    unfold combinedCameraDistance
    rw [show (2001 : ℝ) ^ 2 + 0 ^ 2 = 2001 ^ 2 from by norm_num]
    exact Real.sqrt_sq (by norm_num)
  have hgt : MAX_CAMERA_DISTANCE < combinedCameraDistance 2001 0 := by
    rw [hd]
    unfold MAX_CAMERA_DISTANCE
    norm_num
  exact ⟨hgt, claim_C7_distance_gate true true exampleGateInfo 2001 0 hgt⟩

/-- Claim C10: SensorShadowArea substitutes its own DEFAULT_RANGE = 1000 m for
an undefined range before constructing SensorShadow, so the range reaching
SensorShadow is never null and SensorShadow's null-range default of 2000 m
is unreachable through this caller; with an undefined input range the
effective range, the frustum far plane and the shadow map's maximum distance
are all 1000 m. -/
theorem claim_C10_default_range (info : CurrentViewSensorInfo) :
    (areaSensorParameters info).range = some (info.range.getD DEFAULT_RANGE)
    ∧ (info.range = none →
        getEffectiveRange (areaSensorParameters info) = DEFAULT_RANGE
        ∧ (createFrustum (areaSensorParameters info)
            (getEffectiveRange (areaSensorParameters info))).far = 1000
        ∧ (createNewShadowMapModel
            (getEffectiveRange (areaSensorParameters info))).maximumDistance = 1000)
    ∧ DEFAULT_RANGE = 1000
    ∧ DEFAULT_VISUALIZATION_RANGE = 2000 := by
  refine ⟨rfl, ?_, rfl, rfl⟩
  intro h
  have hr : getEffectiveRange (areaSensorParameters info) = DEFAULT_RANGE := by
    unfold getEffectiveRange areaSensorParameters memoizedCurrentViewSensorInfo
    rw [h]
    rfl
  refine ⟨hr, ?_, ?_⟩
  · rw [show (createFrustum (areaSensorParameters info)
        (getEffectiveRange (areaSensorParameters info))).far =
        getEffectiveRange (areaSensorParameters info) from rfl, hr]
    rfl
  · rw [show (createNewShadowMapModel
        (getEffectiveRange (areaSensorParameters info))).maximumDistance =
        getEffectiveRange (areaSensorParameters info) from rfl, hr]
    rfl

/-- A concrete sensor configuration with an undefined range. -/
noncomputable def exampleInfoNoRange : CurrentViewSensorInfo := ⟨60, 40, none, 0, 0⟩

/-- Witness for claim C10 at a configuration with an undefined range. -/
theorem claim_C10_witness :
    getEffectiveRange (areaSensorParameters exampleInfoNoRange) = DEFAULT_RANGE
    ∧ (createFrustum (areaSensorParameters exampleInfoNoRange)
        (getEffectiveRange (areaSensorParameters exampleInfoNoRange))).far = 1000
    ∧ (createNewShadowMapModel
        (getEffectiveRange (areaSensorParameters exampleInfoNoRange))).maximumDistance =
      1000 :=
  (claim_C10_default_range exampleInfoNoRange).2.1 rfl

/-! ### Evaluation of the geodesy models at latitude 0, longitude 0 -/

theorem geodeticNormalRadians_zero : geodeticNormalRadians 0 0 = ⟨1, 0, 0⟩ := by
  unfold geodeticNormalRadians
  rw [show (⟨Real.cos 0 * Real.cos 0, Real.cos 0 * Real.sin 0, Real.sin 0⟩ : Cart3) =
      ⟨1, 0, 0⟩ from by ext <;> simp]
  exact normalizeC_of_magSq_one _ (by unfold magnitudeSquared; norm_num)

theorem radiiScaledNormal_zero : radiiScaledNormal 0 0 = ⟨wgs84a ^ 2, 0, 0⟩ := by
  unfold radiiScaledNormal wgs84RadiiSquared
  rw [geodeticNormalRadians_zero]
  ext <;> simp

theorem cartesianGamma_zero : cartesianGamma 0 0 = wgs84a := by
  unfold cartesianGamma
  rw [geodeticNormalRadians_zero, radiiScaledNormal_zero]
  unfold dotC
  rw [show (1 : ℝ) * wgs84a ^ 2 + 0 * 0 + 0 * 0 = wgs84a ^ 2 from by ring]
  exact Real.sqrt_sq (by unfold wgs84a; norm_num)

theorem cartesianFromRadians_zero : cartesianFromRadians 0 0 0 = ⟨wgs84a, 0, 0⟩ := by
  have hne : wgs84a ≠ 0 := by unfold wgs84a; norm_num
  unfold cartesianFromRadians
  rw [geodeticNormalRadians_zero, radiiScaledNormal_zero, cartesianGamma_zero]
  unfold addC smulC
  ext <;> simp
  rw [pow_two, mul_div_assoc, div_self hne, mul_one]

theorem geodeticSurfaceNormal_equator : geodeticSurfaceNormal ⟨wgs84a, 0, 0⟩ = ⟨1, 0, 0⟩ := by
  have hne : wgs84a ≠ 0 := by unfold wgs84a; norm_num
  unfold geodeticSurfaceNormal wgs84OneOverRadiiSquared
  rw [show (⟨wgs84a * (1 / wgs84a ^ 2), 0 * (1 / wgs84a ^ 2), 0 * (1 / wgs84b ^ 2)⟩ : Cart3) =
      ⟨1 / wgs84a, 0, 0⟩ from by
    ext <;> simp
    rw [pow_two]
    field_simp]
  have hmag : magnitudeSquared ⟨1 / wgs84a, 0, 0⟩ = (1 / wgs84a) ^ 2 := by
    unfold magnitudeSquared; ring
  unfold normalizeC magnitude
  rw [hmag, Real.sqrt_sq (by unfold wgs84a; norm_num)]
  ext <;> simp
  exact inv_mul_cancel₀ hne

theorem east_equator : normalizeC ⟨-(0 : ℝ), wgs84a, 0⟩ = ⟨0, 1, 0⟩ := by
  have hne : wgs84a ≠ 0 := by unfold wgs84a; norm_num
  rw [show (⟨-(0 : ℝ), wgs84a, 0⟩ : Cart3) = ⟨0, wgs84a, 0⟩ from by ext <;> simp]
  have hmag : magnitudeSquared ⟨(0 : ℝ), wgs84a, 0⟩ = wgs84a ^ 2 := by
    unfold magnitudeSquared; ring
  unfold normalizeC magnitude
  rw [hmag, Real.sqrt_sq (by unfold wgs84a; norm_num)]
  ext <;> simp
  exact div_self hne

theorem enuRotationOfPosition_equator :
    enuRotationOfPosition ⟨wgs84a, 0, 0⟩ =
      mat3FromColumns ⟨0, 1, 0⟩ ⟨0, 0, 1⟩ ⟨1, 0, 0⟩ := by
  unfold enuRotationOfPosition
  dsimp only
  rw [geodeticSurfaceNormal_equator, east_equator]
  rw [show crossC (⟨1, 0, 0⟩ : Cart3) (⟨0, 1, 0⟩ : Cart3) = ⟨0, 0, 1⟩ from by
    unfold crossC; ext <;> norm_num]

/-! ### Variant A world direction (SensorFrustum) -/

/-- SensorFrustum's origin: Cartesian3.fromDegrees of the point with default
height 0. -/
noncomputable def sensorFrustumOrigin (lon lat : ℝ) (hae : Option ℝ) : Cart3 :=
  cartesianFromDegrees lon lat (hae.getD 0)

/-- SensorFrustum's local direction (Variant A), from azimuth and elevation in
degrees. -/
noncomputable def sensorFrustumLocalDirection (azDeg elDeg : ℝ) : Cart3 :=
  variantALocalDirection (toRadians azDeg) (toRadians elDeg)

/-- SensorFrustum's world direction: the local direction at the normalized
azimuth, transformed by the ENU rotation at the origin, then normalized. -/
noncomputable def sensorFrustumWorldDirection (lon lat : ℝ) (hae : Option ℝ)
    (azDeg elDeg : ℝ) : Cart3 :=
  normalizeC (matVec (enuRotationOfPosition (sensorFrustumOrigin lon lat hae))
    (sensorFrustumLocalDirection (normalizedAzimuth azDeg) elDeg))

/-- Claim C8: at origin (lat 0, lon 0, h 0) with azimuth 0 and elevation 0,
Variant A's local direction evaluates to (0,1,0) and the world direction it
induces equals the ENU rotation's North basis column exactly, namely
(0,0,1). -/
theorem claim_C8_north_column :
    sensorFrustumLocalDirection (normalizedAzimuth 0) 0 = ⟨0, 1, 0⟩
    ∧ sensorFrustumWorldDirection 0 0 (some 0) 0 0 =
        mat3Col1 (enuRotationOfPosition (sensorFrustumOrigin 0 0 (some 0)))
    ∧ mat3Col1 (enuRotationOfPosition (sensorFrustumOrigin 0 0 (some 0))) = ⟨0, 0, 1⟩ := by
  have horigin : sensorFrustumOrigin 0 0 (some 0) = ⟨wgs84a, 0, 0⟩ := by
    unfold sensorFrustumOrigin cartesianFromDegrees
    dsimp only [Option.getD]
    rw [toRadians_zero]
    exact cartesianFromRadians_zero
  have hld : sensorFrustumLocalDirection (normalizedAzimuth 0) 0 = ⟨0, 1, 0⟩ := by
    rw [normalizedAzimuth_zero]
    unfold sensorFrustumLocalDirection variantALocalDirection
    rw [toRadians_zero]
    ext <;> simp
  refine ⟨hld, ?_, ?_⟩
  · unfold sensorFrustumWorldDirection
    rw [hld, horigin, enuRotationOfPosition_equator]
    rw [show matVec (mat3FromColumns ⟨0, 1, 0⟩ ⟨0, 0, 1⟩ ⟨1, 0, 0⟩) ⟨0, 1, 0⟩ =
        (⟨0, 0, 1⟩ : Cart3) from by unfold matVec mat3FromColumns; ext <;> norm_num]
    rw [normalize001]
    unfold mat3Col1 mat3FromColumns
    ext <;> norm_num
  · rw [horigin, enuRotationOfPosition_equator]
    unfold mat3Col1 mat3FromColumns
    ext <;> norm_num

end CesiumSensor
